import Mathlib

/-!
# Verification of the DDoS-Defense-System anomaly-detection core

Shallow embedding of `src/anomaly_detection/detector.py` (the
`AnomalyDetector` ensemble) and `src/monitoring/traffic_monitor.py`
(the `TrafficMonitor` windowing / threat-level state machine), with
theorems settling the specification's claims about them.

Numeric values that are IEEE floats in the Python code are modelled as
rationals extended with a `nan` element (`RFloat`), because the claims
under scrutiny depend on NaN propagation (pandas' sample standard
deviation of a single element is NaN) but not on rounding.  Comparisons
against NaN are false, and arithmetic on NaN yields NaN, as in numpy.
Division by zero is collapsed to NaN; no code path examined here divides
by a float zero (sklearn's `StandardScaler` replaces a zero `scale_` by
1.0 before it is ever used as a divisor).  The square root used by
pandas' standard deviation has no exact rational counterpart, so it is
threaded through the window reduction as an explicit function parameter
`sqrtFn`; every theorem below holds for all choices of `sqrtFn`.
-/

/-- A rational extended with a NaN element, modelling the subset of IEEE
float behaviour the Python code exercises. -/
inductive RFloat where
  | nan : RFloat
  | val : ℚ → RFloat
deriving DecidableEq

namespace RFloat

/-- Float addition: NaN absorbs. -/
def add : RFloat → RFloat → RFloat
  | val a, val b => val (a + b)
  | _, _ => nan

/-- Float subtraction: NaN absorbs. -/
def sub : RFloat → RFloat → RFloat
  | val a, val b => val (a - b)
  | _, _ => nan

/-- Float multiplication: NaN absorbs. -/
def mul : RFloat → RFloat → RFloat
  | val a, val b => val (a * b)
  | _, _ => nan

/-- Float division: NaN absorbs; division by zero is collapsed to NaN
(see the module comment — no modelled code path divides by zero). -/
def div : RFloat → RFloat → RFloat
  | val a, val b => if b = 0 then nan else val (a / b)
  | _, _ => nan

/-- Absolute value; NaN maps to NaN (numpy `np.abs`). -/
def rabs : RFloat → RFloat
  | nan => nan
  | val a => val |a|

/-- numpy maximum of two floats: propagates NaN (`np.max` reduction). -/
def maxNaN : RFloat → RFloat → RFloat
  | val a, val b => val (max a b)
  | _, _ => nan

/-- Comparison `x > t` against a non-NaN threshold: false when `x` is
NaN, as for IEEE floats / numpy. -/
def gtQ : RFloat → ℚ → Bool
  | nan, _ => false
  | val a, t => decide (t < a)

end RFloat

/-- `np.max` over a row (axis-1 reduction): undefined (NaN) on an empty
row, otherwise a left fold of the NaN-propagating maximum. -/
def npMax : List RFloat → RFloat
  | [] => RFloat.nan
  | x :: xs => xs.foldl RFloat.maxNaN x

/-- Sum of a list of floats (numpy sum over a row). -/
def rfSum (xs : List RFloat) : RFloat :=
  xs.foldl RFloat.add (RFloat.val 0)

/-- `np.mean` / pandas `.mean()` over a list: sum divided by length,
NaN on an empty list. -/
def rfMean (xs : List RFloat) : RFloat :=
  if xs.length = 0 then RFloat.nan
  else RFloat.div (rfSum xs) (RFloat.val (xs.length : ℚ))

/-- The constructor hyperparameters of `sklearn.preprocessing.StandardScaler`
— exactly what `get_params()` returns and `set_params(**·)` accepts.
The fitted statistics `mean_` / `scale_` are NOT part of these. -/
structure ScalerParams where
  copy : Bool := true
  with_mean : Bool := true
  with_std : Bool := true
deriving DecidableEq

/-- A `StandardScaler`: hyperparameters plus the optional fitted state
(`mean_`, `scale_`), which is `none` for a freshly constructed scaler. -/
structure StandardScaler where
  params : ScalerParams := {}
  fitted : Option (List ℚ × List ℚ) := none

/-- `StandardScaler.transform`: raises `NotFittedError` (here: `none`)
when the scaler has not been fitted; otherwise centres by `mean_` and
scales by `scale_` according to the hyperparameter flags. -/
def StandardScaler.transform (s : StandardScaler) (x : List RFloat) :
    Option (List RFloat) :=
  match s.fitted with
  | none => none
  | some (mean, scale) =>
    let centered :=
      if s.params.with_mean then
        List.zipWith (fun xi m => RFloat.sub xi (RFloat.val m)) x mean
      else x
    let scaled :=
      if s.params.with_std then
        List.zipWith (fun xi sc => RFloat.div xi (RFloat.val sc)) centered scale
      else centered
    some scaled

/-- The `"statistical"` entry of `AnomalyDetector.algorithms`: a scaler
and the configured z-score threshold. -/
structure StatisticalAlg where
  scaler : StandardScaler
  threshold : ℚ

/-- An `IsolationForest`: the `contamination` hyperparameter and, when
fitted, the model's per-row `predict` function (+1 inlier / −1 outlier).
The fitted predictor is opaque: the repository treats it as a black box
from sklearn. -/
structure IsolationForestModel where
  contamination : ℚ
  fitted : Option (List RFloat → Int) := none

/-- A trained autoencoder, opaque except for its per-row reconstruction
function (the repository treats Keras models as black boxes). -/
structure AutoEncoderModel where
  reconstruct : List RFloat → List RFloat

/-- The state of `AnomalyDetector` after `__init__`: each field is
`some _` exactly when the algorithm's key is present in the
`self.algorithms` dict (i.e. the algorithm is enabled).  The
`autoencoder` entry holds `some none` for the enabled-but-untrained
state (`self.algorithms["autoencoder"] = None` in the source).
`autoencoder_threshold` models `self.thresholds["autoencoder"]`. -/
structure AnomalyDetector where
  statistical : Option StatisticalAlg := none
  isolation_forest : Option IsolationForestModel := none
  autoencoder : Option (Option AutoEncoderModel) := none
  autoencoder_threshold : Option ℚ := none

/-- The names of the enabled algorithms, in the insertion order of the
`self.algorithms` dict. -/
def AnomalyDetector.enabledNames (d : AnomalyDetector) : List String :=
  (if d.statistical.isSome then ["statistical"] else []) ++
  (if d.isolation_forest.isSome then ["isolation_forest"] else []) ++
  (if d.autoencoder.isSome then ["autoencoder"] else [])

/-- `AnomalyDetector.predict` is modelled on one feature vector (the
monitor always passes a batch of exactly one row, `np.array([[...]])`;
the per-row result is embedded).  It is split here into the source's
three per-algorithm blocks; each block yields the entries it adds to
the `predictions` dict, or `none` where the Python code would raise: an
unfitted scaler or forest (`NotFittedError`), an enabled-but-`None`
autoencoder (`AttributeError`), or a missing autoencoder threshold
(`KeyError`).  This is the `"statistical"` block: standardize, take the
max absolute z-score, compare against the configured threshold. -/
def statPredictions (d : AnomalyDetector) (x : List RFloat) :
    Option (List (String × Bool)) :=
  match d.statistical with
  | none => some []
  | some st =>
    match st.scaler.transform x with
    | none => none
    | some xs =>
      some [("statistical", (npMax (xs.map RFloat.rabs)).gtQ st.threshold)]

/-- The `"isolation_forest"` block of `predict`: the sklearn convention
−1-for-outlier is translated to boolean true. -/
def forestPredictions (d : AnomalyDetector) (x : List RFloat) :
    Option (List (String × Bool)) :=
  match d.isolation_forest with
  | none => some []
  | some m =>
    match m.fitted with
    | none => none
    | some f => some [("isolation_forest", f x == -1)]

/-- The `"autoencoder"` block of `predict`: mean squared reconstruction
error compared against the stored threshold. -/
def aePredictions (d : AnomalyDetector) (x : List RFloat) :
    Option (List (String × Bool)) :=
  match d.autoencoder with
  | none => some []
  | some none => none
  | some (some ae) =>
    match d.autoencoder_threshold with
    | none => none
    | some thr =>
      let diffs := List.zipWith RFloat.sub x (ae.reconstruct x)
      let err := rfMean (diffs.map (fun e => RFloat.mul e e))
      some [("autoencoder", err.gtQ thr)]

/-- The full `AnomalyDetector.predict`: the three per-algorithm blocks
in source order, followed by the combination loop. -/
def AnomalyDetector.predict (d : AnomalyDetector) (x : List RFloat) :
    Option (Bool × List (String × Bool)) :=
  match statPredictions d x with
  | none => none
  | some p₁ =>
    match forestPredictions d x with
    | none => none
    | some p₂ =>
      match aePredictions d x with
      | none => none
      | some p₃ =>
        let preds := p₁ ++ p₂ ++ p₃
        some (preds.foldl (fun acc p => acc || p.2) false, preds)

/-- One entry of `config["anomaly_detection"]["algorithms"]`: the keys a
config dict may carry (absent keys are `none`; reading an absent key in
Python raises `KeyError`). -/
structure AlgoConfig where
  name : String
  enabled : Bool
  z_score_threshold : Option ℚ := none
  contamination : Option ℚ := none
  threshold : Option ℚ := none

/-- The `config["anomaly_detection"]` dictionary as consumed by
`AnomalyDetector.__init__` (the `window_size` / `update_interval`
entries are read and stored but never used by the operations verified
here). -/
structure DetectorConfig where
  window_size : ℚ
  update_interval : ℚ
  algorithms : List AlgoConfig

/-- `AnomalyDetector._is_algorithm_enabled`. -/
def isAlgorithmEnabled (cfg : DetectorConfig) (nm : String) : Bool :=
  cfg.algorithms.any (fun a => a.name = nm && a.enabled)

/-- `AnomalyDetector.__init__`: builds the `algorithms` / `thresholds`
dicts.  Thresholds are read positionally (`algorithms[0]`, `[1]`, `[2]`);
`none` models the `IndexError`/`KeyError` the Python code would raise if
the indexed entry or its key is missing.  A fresh detector's scaler and
forest are unfitted, and an enabled autoencoder is the `None`
placeholder until training. -/
def AnomalyDetector.init (cfg : DetectorConfig) : Option AnomalyDetector :=
  let statF : Option (Option StatisticalAlg) :=
    if isAlgorithmEnabled cfg "statistical" then
      match (cfg.algorithms.get? 0).bind (fun a => a.z_score_threshold) with
      | none => none
      | some z => some (some { scaler := {}, threshold := z })
    else some none
  match statF with
  | none => none
  | some stat =>
    let ifF : Option (Option IsolationForestModel) :=
      if isAlgorithmEnabled cfg "isolation_forest" then
        match (cfg.algorithms.get? 1).bind (fun a => a.contamination) with
        | none => none
        | some c => some (some { contamination := c, fitted := none })
      else some none
    match ifF with
    | none => none
    | some ifm =>
      if isAlgorithmEnabled cfg "autoencoder" then
        match (cfg.algorithms.get? 2).bind (fun a => a.threshold) with
        | none => none
        | some th =>
          some { statistical := stat, isolation_forest := ifm,
                 autoencoder := some none, autoencoder_threshold := some th }
      else
        some { statistical := stat, isolation_forest := ifm,
               autoencoder := none, autoencoder_threshold := none }

/-- What `AnomalyDetector.save_models` writes into the model directory.
For the statistical algorithm the saved payload is exactly
`scaler.get_params()` — the constructor hyperparameters — with the
fitted `mean_`/`scale_` absent.  For the forest, `joblib.dump` persists
the whole model object; for the autoencoder, Keras `save` persists the
model and a separate file holds the threshold. -/
structure SavedStore where
  statistical_scaler : Option ScalerParams := none
  isolation_forest_file : Option IsolationForestModel := none
  autoencoder_file : Option AutoEncoderModel := none
  autoencoder_threshold_file : Option ℚ := none

/-- `AnomalyDetector.save_models`.  Returns `none` where the Python code
raises: saving an enabled-but-`None` autoencoder (`None.save` is an
`AttributeError`) or a missing autoencoder threshold (`KeyError`). -/
def AnomalyDetector.save_models (d : AnomalyDetector) : Option SavedStore :=
  let stat := d.statistical.map (fun st => st.scaler.params)
  let ifm := d.isolation_forest
  match d.autoencoder with
  | none => some { statistical_scaler := stat, isolation_forest_file := ifm }
  | some none => none
  | some (some ae) =>
    match d.autoencoder_threshold with
    | none => none
    | some thr =>
      some { statistical_scaler := stat, isolation_forest_file := ifm,
             autoencoder_file := some ae, autoencoder_threshold_file := some thr }

/-- `AnomalyDetector.load_models`, called on the receiving detector `d`
(freshly constructed by the API server at startup).  For each enabled
algorithm the corresponding file must exist (`none` models the raised
exception on a missing file).  The statistical branch calls
`scaler.set_params(**saved)`, which replaces only the hyperparameters
and leaves the receiver's fitted state exactly as it was; the forest and
autoencoder entries are replaced wholesale by the loaded objects. -/
def AnomalyDetector.load_models (d : AnomalyDetector) (s : SavedStore) :
    Option AnomalyDetector :=
  let d₁ : Option AnomalyDetector :=
    match d.statistical with
    | none => some d
    | some st =>
      match s.statistical_scaler with
      | none => none
      | some ps =>
        let st' : StatisticalAlg :=
          { st with scaler := { st.scaler with params := ps } }
        some { d with statistical := some st' }
  match d₁ with
  | none => none
  | some d₁ =>
    let d₂ : Option AnomalyDetector :=
      match d₁.isolation_forest with
      | none => some d₁
      | some _ =>
        match s.isolation_forest_file with
        | none => none
        | some m => some { d₁ with isolation_forest := some m }
    match d₂ with
    | none => none
    | some d₂ =>
      match d₂.autoencoder with
      | none => some d₂
      | some _ =>
        match s.autoencoder_file, s.autoencoder_threshold_file with
        | some ae, some thr =>
          some { d₂ with autoencoder := some (some ae),
                         autoencoder_threshold := some thr }
        | _, _ => none

/-- The `self.stats` dict of `TrafficMonitor`. -/
structure MonitorStats where
  packets_processed : ℕ
  alerts_triggered : ℕ
  last_alert_time : Option ℚ
  current_threat_level : String
deriving DecidableEq

/-- The per-packet feature dict built by
`TrafficMonitor._extract_features` (all fields default to 0 for
non-IP / non-TCP / non-UDP packets). -/
structure PacketFeatures where
  packet_size : ℕ
  protocol : ℕ := 0
  tcp_flags : ℕ := 0
  udp_length : ℕ := 0
  src_port : ℕ := 0
  dst_port : ℕ := 0
deriving DecidableEq

/-- The mutable state of a `TrafficMonitor` instance.  Wall-clock reads
(`time.time()`) are modelled by passing the current time explicitly to
each operation.  The two thread handles are modelled by flags recording
whether a thread object has been created. -/
structure TrafficMonitor where
  detector : AnomalyDetector
  interface : String
  window_size : ℚ
  feature_names : Option (List String)
  current_window : List PacketFeatures
  window_start_time : ℚ
  recent_predictions : List Bool
  is_running : Bool
  capture_thread : Bool
  analysis_thread : Bool
  stats : MonitorStats

/-- pandas `Series.std()` with its default `ddof = 1` (sample standard
deviation): NaN for a series of length ≤ 1 (the 0/0 variance), otherwise
the square root — taken via the abstract `sqrtFn` (see module comment)
— of `Σ (x − mean)² / (n − 1)`. -/
def pandasStd (sqrtFn : ℚ → ℚ) (xs : List ℚ) : RFloat :=
  if xs.length ≤ 1 then RFloat.nan
  else
    let m : ℚ := xs.sum / (xs.length : ℚ)
    RFloat.val (sqrtFn ((xs.map (fun x => (x - m) ^ 2)).sum / ((xs.length : ℚ) - 1)))

/-- pandas `Series.mean()` over an exact rational column: NaN on an
empty series. -/
def pandasMean (xs : List ℚ) : RFloat :=
  if xs.length = 0 then RFloat.nan
  else RFloat.val (xs.sum / (xs.length : ℚ))

/-- `(df[c] == v).mean()`: fraction of rows satisfying a predicate, NaN
on an empty frame. -/
def pandasFracP (p : PacketFeatures → Bool) (w : List PacketFeatures) : RFloat :=
  if w.length = 0 then RFloat.nan
  else RFloat.val ((w.countP p : ℚ) / (w.length : ℚ))

/-- `Series.nunique()`: number of distinct values in a column. -/
def nunique (xs : List ℕ) : ℕ := xs.dedup.length

/-- The `stats` dict built in `TrafficMonitor._analyze_window`, in its
insertion order (`syn_ratio` is inserted last, after the port counts). -/
def windowStatsDict (sqrtFn : ℚ → ℚ) (w : List PacketFeatures) :
    List (String × RFloat) :=
  [("packet_count", RFloat.val (w.length : ℚ)),
   ("avg_packet_size", pandasMean (w.map (fun p => (p.packet_size : ℚ)))),
   ("std_packet_size", pandasStd sqrtFn (w.map (fun p => (p.packet_size : ℚ)))),
   ("tcp_ratio", pandasFracP (fun p => p.protocol == 6) w),
   ("udp_ratio", pandasFracP (fun p => p.protocol == 17) w),
   ("unique_src_ports", RFloat.val (nunique (w.map (fun p => p.src_port)) : ℚ)),
   ("unique_dst_ports", RFloat.val (nunique (w.map (fun p => p.dst_port)) : ℚ)),
   ("syn_ratio", pandasFracP (fun p => p.tcp_flags == 2) w)]

/-- Assembly of the feature row in `_analyze_window`: Python's
`if self.feature_names:` is truthiness, so both `None` and the empty
list fall through to "all stats values in dict order"; a non-empty name
list selects `stats[name]` with default 0 for unknown names. -/
def featureRow (sqrtFn : ℚ → ℚ) (featureNames : Option (List String))
    (w : List PacketFeatures) : List RFloat :=
  let stats := windowStatsDict sqrtFn w
  match featureNames with
  | some (n :: ns) =>
    (n :: ns).map (fun name => (stats.lookup name).getD (RFloat.val 0))
  | _ => stats.map Prod.snd

/-- `collections.deque(maxlen := k).append`: push at the right, evicting
from the left once the capacity is exceeded. -/
def dequePush (maxlen : ℕ) (l : List Bool) (b : Bool) : List Bool :=
  let l' := l ++ [b]
  if maxlen < l'.length then l'.drop (l'.length - maxlen) else l'

/-- `TrafficMonitor._update_threat_level`: with fewer than 10 retained
verdicts the state is returned untouched; otherwise the alert fraction
`sum(recent_predictions) / len(recent_predictions)` is cascaded through
the strict threshold bands 0.8 / 0.5 / 0.2. -/
def TrafficMonitor.updateThreatLevel (m : TrafficMonitor) : TrafficMonitor :=
  if m.recent_predictions.length < 10 then m
  else
    let r : ℚ :=
      (m.recent_predictions.countP id : ℚ) / (m.recent_predictions.length : ℚ)
    let level : String :=
      if r > 0.8 then "CRITICAL"
      else if r > 0.5 then "HIGH"
      else if r > 0.2 then "MEDIUM"
      else "LOW"
    { m with stats := { m.stats with current_threat_level := level } }

/-- `TrafficMonitor._analyze_window` at current time `t`.  An empty
batch returns immediately (state untouched — in particular the window
start time is NOT reset on this path).  Otherwise the batch is reduced
to a feature row, scored by the detector (`none` propagates a raised
exception), the verdict is pushed onto the bounded history, the threat
level is updated, the window is reset (batch cleared, start time := `t`)
and, on an anomalous verdict, the alert counters are bumped.  The two
`time.time()` calls in the source (window reset and alert timestamp)
are both modelled by the single instant `t`. -/
def TrafficMonitor.analyzeWindow (sqrtFn : ℚ → ℚ) (m : TrafficMonitor) (t : ℚ) :
    Option TrafficMonitor :=
  if m.current_window = [] then some m
  else
    match m.detector.predict (featureRow sqrtFn m.feature_names m.current_window) with
    | none => none
    | some (isAnomaly, _) =>
      let m₁ :=
        { m with recent_predictions := dequePush 100 m.recent_predictions isAnomaly }
      let m₂ := m₁.updateThreatLevel
      let m₃ := { m₂ with current_window := [], window_start_time := t }
      if isAnomaly then
        some { m₃ with stats := { m₃.stats with
                 alerts_triggered := m₃.stats.alerts_triggered + 1,
                 last_alert_time := some t } }
      else some m₃

/-- The caller-observable outcome of `TrafficMonitor.start`: either the
"already running" warning written to the log, or a normal start. -/
inductive StartOutcome where
  | alreadyRunningWarning
  | started
deriving DecidableEq

/-- `TrafficMonitor.start`: when already running it logs a warning and
returns with every field untouched (no threads are spawned); otherwise
it sets the running flag and spawns the capture and analysis threads. -/
def TrafficMonitor.start (m : TrafficMonitor) : TrafficMonitor × StartOutcome :=
  if m.is_running then (m, StartOutcome.alreadyRunningWarning)
  else
    ({ m with is_running := true, capture_thread := true, analysis_thread := true },
     StartOutcome.started)

/-- `TrafficMonitor.stop`: unconditionally clears the running flag and
joins both threads with a bounded timeout (the joins do not change the
modelled state).  Note this method itself performs no "not active"
check; that rejection lives in the API layer (`stop_monitoring`). -/
def TrafficMonitor.stop (m : TrafficMonitor) : TrafficMonitor :=
  { m with is_running := false }

/-- The dict returned by `TrafficMonitor.get_stats`. -/
structure StatsSnapshot where
  packets_processed : ℕ
  alerts_triggered : ℕ
  last_alert_time : Option ℚ
  current_threat_level : String
  uptime : ℚ
  packets_per_second : ℚ
deriving DecidableEq

/-- `TrafficMonitor.get_stats` at current time `t`: copies `self.stats`
and adds `uptime = t − window_start_time` and
`packets_per_second = packets_processed / max(1, t − window_start_time)`. -/
def TrafficMonitor.get_stats (m : TrafficMonitor) (t : ℚ) : StatsSnapshot :=
  { packets_processed := m.stats.packets_processed
    alerts_triggered := m.stats.alerts_triggered
    last_alert_time := m.stats.last_alert_time
    current_threat_level := m.stats.current_threat_level
    uptime := t - m.window_start_time
    packets_per_second :=
      (m.stats.packets_processed : ℚ) / max 1 (t - m.window_start_time) }

/-- A response of the FastAPI control plane: either an `HTTPException`
turned into an HTTP error response (status code + detail), or a success
payload.  Raising `HTTPException` inside an endpoint does not crash the
server; the framework converts it into exactly this response value. -/
inductive ApiResponse where
  | httpError (status : ℕ) (detail : String)
  | ok (message : String)
deriving DecidableEq

/-- The `/monitor/stop` endpoint (`stop_monitoring` in
`src/api/server.py`): when the global monitor was never created or is
not running it rejects with HTTP 400 "Monitoring is not active" and
leaves the monitor untouched; otherwise it calls `TrafficMonitor.stop`
and reports success.  Total: no modelled path raises anything that
escapes the endpoint. -/
def stop_monitoring (mon : Option TrafficMonitor) :
    ApiResponse × Option TrafficMonitor :=
  match mon with
  | none => (ApiResponse.httpError 400 "Monitoring is not active", none)
  | some m =>
    if m.is_running then (ApiResponse.ok "Stopped monitoring", some m.stop)
    else (ApiResponse.httpError 400 "Monitoring is not active", some m)

/-- The source's combination loop (`combined |= pred` starting from
`False`) is logical OR over the list of per-algorithm verdicts. -/
theorem foldl_or_eq_any (l : List (String × Bool)) (b : Bool) :
    l.foldl (fun acc p => acc || p.2) b = (b || l.any (fun p => p.2)) := by
  induction l generalizing b with
  | nil => simp
  | cons h t ih => simp [List.foldl_cons, ih, Bool.or_assoc]

/-- When the statistical block succeeds it contributes exactly one entry
iff the algorithm is enabled. -/
theorem statPredictions_names (d : AnomalyDetector) (x : List RFloat)
    (p : List (String × Bool)) (h : statPredictions d x = some p) :
    p.map Prod.fst = (if d.statistical.isSome then ["statistical"] else []) := by
  rcases hs : d.statistical with _ | st <;> simp only [statPredictions, hs] at h
  · obtain rfl := Option.some.inj h
    simp
  · rcases ht : st.scaler.transform x with _ | xs <;> simp only [ht] at h
    · exact absurd h (by simp)
    · obtain rfl := Option.some.inj h
      simp

/-- When the forest block succeeds it contributes exactly one entry iff
the algorithm is enabled. -/
theorem forestPredictions_names (d : AnomalyDetector) (x : List RFloat)
    (p : List (String × Bool)) (h : forestPredictions d x = some p) :
    p.map Prod.fst = (if d.isolation_forest.isSome then ["isolation_forest"] else []) := by
  rcases hi : d.isolation_forest with _ | im <;> simp only [forestPredictions, hi] at h
  · obtain rfl := Option.some.inj h
    simp
  · rcases hf : im.fitted with _ | f <;> simp only [hf] at h
    · exact absurd h (by simp)
    · obtain rfl := Option.some.inj h
      simp

/-- When the autoencoder block succeeds it contributes exactly one entry
iff the algorithm is enabled. -/
theorem aePredictions_names (d : AnomalyDetector) (x : List RFloat)
    (p : List (String × Bool)) (h : aePredictions d x = some p) :
    p.map Prod.fst = (if d.autoencoder.isSome then ["autoencoder"] else []) := by
  rcases ha : d.autoencoder with _ | oae <;> simp only [aePredictions, ha] at h
  · obtain rfl := Option.some.inj h
    simp
  · rcases oae with _ | ae <;> simp only [] at h
    · exact absurd h (by simp)
    · rcases hth : d.autoencoder_threshold with _ | thr <;> simp only [hth] at h
      · exact absurd h (by simp)
      · obtain rfl := Option.some.inj h
        simp

/-- C1: for every input feature vector, the combined verdict returned by
the ensemble's `predict` is the logical OR of the boolean verdicts of
all enabled algorithms (the per-algorithm list carries exactly one entry
per enabled algorithm, in dict order), and with zero algorithms enabled
the combined verdict is false for every input. -/
theorem predict_combined_is_or_of_enabled (d : AnomalyDetector) (x : List RFloat) :
    (∀ overall per, d.predict x = some (overall, per) →
        overall = per.any (fun p => p.2) ∧ per.map Prod.fst = d.enabledNames) ∧
    (d.statistical = none → d.isolation_forest = none → d.autoencoder = none →
        d.predict x = some (false, [])) := by
  constructor
  · intro overall per h
    unfold AnomalyDetector.predict at h
    rcases h₁ : statPredictions d x with _ | p₁ <;> simp only [h₁] at h
    · exact absurd h (by simp)
    rcases h₂ : forestPredictions d x with _ | p₂ <;> simp only [h₂] at h
    · exact absurd h (by simp)
    rcases h₃ : aePredictions d x with _ | p₃ <;> simp only [h₃] at h
    · exact absurd h (by simp)
    rw [Option.some.injEq, Prod.mk.injEq] at h
    obtain ⟨ho, hp⟩ := h
    subst ho
    subst hp
    refine ⟨by simp [foldl_or_eq_any, Bool.or_assoc], ?_⟩
    simp [AnomalyDetector.enabledNames, List.map_append,
          statPredictions_names d x p₁ h₁, forestPredictions_names d x p₂ h₂,
          aePredictions_names d x p₃ h₃]
  · intro h₁ h₂ h₃
    simp [AnomalyDetector.predict, statPredictions, forestPredictions,
          aePredictions, h₁, h₂, h₃]

/-- Witness for C1: the detector with zero enabled algorithms reports no
anomaly on the empty feature vector. -/
theorem predict_combined_is_or_of_enabled_witness :
    ({} : AnomalyDetector).predict [] = some (false, []) :=
  (predict_combined_is_or_of_enabled {} []).2 rfl rfl rfl


/-- The statistical-only configuration (z-score threshold 3), with the
other two algorithms disabled — the shape `config/config.yaml` feeds to
`AnomalyDetector.__init__`. -/
def statOnlyConfig : DetectorConfig :=
  { window_size := 10
    update_interval := 60
    algorithms :=
      [ { name := "statistical", enabled := true, z_score_threshold := some 3 },
        { name := "isolation_forest", enabled := false, contamination := some (1/10) },
        { name := "autoencoder", enabled := false, threshold := some (95/100) } ] }

/-- A freshly constructed statistical-only detector, as the API server
builds at startup before calling `load_models`: enabled statistical
algorithm, unfitted scaler. -/
def freshStatDetector : AnomalyDetector :=
  { statistical := some { scaler := {}, threshold := 3 } }

/-- A trained statistical-only detector: the scaler has been fitted
(here with `mean_ = [0]`, `scale_ = [1]`). -/
def trainedStatDetector : AnomalyDetector :=
  { statistical :=
      some { scaler := { fitted := some ([0], [1]) }, threshold := 3 } }

/-- C2 (code bug): save followed by load does NOT round-trip the fitted
statistical model.  Concretely: `__init__` on the statistical-only
config yields the fresh detector; the trained detector classifies the
vector `[1.0]` (verdict: not anomalous); `save_models` writes only the
scaler's constructor hyperparameters (`get_params()` — no `mean_` or
`scale_`); loading that store into a freshly constructed detector (the
API server's startup path) leaves the scaler unfitted, so `predict`
raises `NotFittedError` (`none`) instead of reproducing the verdict. -/
theorem save_load_loses_fitted_scaler :
    AnomalyDetector.init statOnlyConfig = some freshStatDetector ∧
    trainedStatDetector.predict [RFloat.val 1] =
      some (false, [("statistical", false)]) ∧
    trainedStatDetector.save_models = some { statistical_scaler := some {} } ∧
    freshStatDetector.load_models { statistical_scaler := some {} } =
      some freshStatDetector ∧
    freshStatDetector.predict [RFloat.val 1] = none ∧
    (some (false, [("statistical", false)]) :
        Option (Bool × List (String × Bool))) ≠ none := by
  refine ⟨rfl, ?_, rfl, rfl, rfl, by simp⟩
  simp [AnomalyDetector.predict, statPredictions, forestPredictions,
        aePredictions, trainedStatDetector, StandardScaler.transform, npMax,
        RFloat.sub, RFloat.div, RFloat.rabs, RFloat.gtQ]

/-- A monitor as built by `TrafficMonitor.__init__` with the zero-enabled
detector: empty window, empty verdict history, not running, initial
stats. -/
def baseMonitor : TrafficMonitor :=
  { detector := {}
    interface := "eth0"
    window_size := 10
    feature_names := none
    current_window := []
    window_start_time := 0
    recent_predictions := []
    is_running := false
    capture_thread := false
    analysis_thread := false
    stats := { packets_processed := 0
               alerts_triggered := 0
               last_alert_time := none
               current_threat_level := "LOW" } }

/-- With a warm history (≥ 10 verdicts), the updated threat level is the
band cascade applied to the alert fraction. -/
theorem updateThreatLevel_level_of_warm (m : TrafficMonitor)
    (h : ¬ m.recent_predictions.length < 10) :
    m.updateThreatLevel.stats.current_threat_level =
      (if ((m.recent_predictions.countP id : ℚ) /
            (m.recent_predictions.length : ℚ)) > 0.8 then "CRITICAL"
       else if ((m.recent_predictions.countP id : ℚ) /
            (m.recent_predictions.length : ℚ)) > 0.5 then "HIGH"
       else if ((m.recent_predictions.countP id : ℚ) /
            (m.recent_predictions.length : ℚ)) > 0.2 then "MEDIUM"
       else "LOW") := by
  rw [TrafficMonitor.updateThreatLevel, if_neg h]

/-- A monitor whose retained history holds 100 verdicts, exactly 50 of
them true (alert fraction exactly 0.5). -/
def fiftyFiftyMonitor : TrafficMonitor :=
  { baseMonitor with
      recent_predictions := List.replicate 50 true ++ List.replicate 50 false }

/-- C3 counterexample: on a history of 100 verdicts with exactly 50 true
(alert fraction exactly 0.5) the update sets the level to MEDIUM, not
HIGH — `0.5 > 0.5` is false, so the HIGH band is not entered. -/
theorem threat_level_half_is_medium_not_high :
    fiftyFiftyMonitor.updateThreatLevel.stats.current_threat_level = "MEDIUM" ∧
    fiftyFiftyMonitor.updateThreatLevel.stats.current_threat_level ≠ "HIGH" := by
  have hlen : fiftyFiftyMonitor.recent_predictions.length = 100 := by decide
  have hcnt : fiftyFiftyMonitor.recent_predictions.countP id = 50 := by decide
  have h := updateThreatLevel_level_of_warm fiftyFiftyMonitor (by rw [hlen]; omega)
  rw [hlen, hcnt] at h
  norm_num at h
  rw [h]
  refine ⟨rfl, by simp⟩

/-- C3 amended: a history of exactly 100 retained verdicts of which
exactly 50 are true (alert fraction exactly 0.5) yields MEDIUM: since
the bands use strict `>`, the fraction 0.5 fails both the 0.8 and the
0.5 band and matches the 0.2 band. -/
theorem threat_level_half_ratio_yields_medium (m : TrafficMonitor)
    (hlen : m.recent_predictions.length = 100)
    (hcnt : m.recent_predictions.countP id = 50) :
    m.updateThreatLevel.stats.current_threat_level = "MEDIUM" := by
  have h := updateThreatLevel_level_of_warm m (by rw [hlen]; omega)
  rw [hlen, hcnt] at h
  norm_num at h
  exact h

/-- Witness for the amended C3 at the concrete 50-true/50-false
history. -/
theorem threat_level_half_ratio_yields_medium_witness :
    fiftyFiftyMonitor.updateThreatLevel.stats.current_threat_level = "MEDIUM" :=
  threat_level_half_ratio_yields_medium fiftyFiftyMonitor (by decide) (by decide)

/-- C4: with fewer than 10 retained verdicts, `_update_threat_level`
returns the monitor completely unchanged — in particular the threat
level keeps its prior value, whatever the verdicts are. -/
theorem short_history_keeps_state (m : TrafficMonitor)
    (h : m.recent_predictions.length < 10) :
    m.updateThreatLevel = m := by
  rw [TrafficMonitor.updateThreatLevel, if_pos h]

/-- Witness for C4 at the empty history. -/
theorem short_history_keeps_state_witness :
    baseMonitor.updateThreatLevel = baseMonitor :=
  short_history_keeps_state baseMonitor (by decide)

/-- C5 amended: `_analyze_window` on an empty accumulation batch returns
immediately with the monitor state completely unchanged — no feature
vector, no verdict, and crucially NO window reset: the start time keeps
its old value (the reset happens only after a non-empty reduction). -/
theorem analyze_empty_window_is_skipped (sqrtFn : ℚ → ℚ) (m : TrafficMonitor)
    (t : ℚ) (h : m.current_window = []) :
    m.analyzeWindow sqrtFn t = some m := by
  rw [TrafficMonitor.analyzeWindow, if_pos h]

/-- C5 counterexample: running window analysis at time 5 on a monitor
with an empty batch and window start time 0 leaves the start time at 0
— it is NOT set to the current time, refuting the claimed reset. -/
theorem analyze_empty_window_does_not_reset :
    TrafficMonitor.analyzeWindow (fun q => q) baseMonitor 5 = some baseMonitor ∧
    baseMonitor.window_start_time = 0 ∧ (0 : ℚ) ≠ 5 := by
  refine ⟨?_, rfl, by norm_num⟩
  rw [TrafficMonitor.analyzeWindow,
      if_pos (show baseMonitor.current_window = [] from rfl)]

/-- Witness for the amended C5 at a concrete empty-batch monitor. -/
theorem analyze_empty_window_is_skipped_witness :
    TrafficMonitor.analyzeWindow (fun q => q) baseMonitor 7 = some baseMonitor :=
  analyze_empty_window_is_skipped (fun q => q) baseMonitor 7 rfl

/-- C6 (code bug): for a window holding exactly one packet, the
`std_packet_size` entry of the reduced stats — and hence the third entry
of the default feature row — is NaN (pandas sample std with `ddof = 1`
over one sample), not 0. -/
theorem single_packet_std_is_nan (sqrtFn : ℚ → ℚ) (p : PacketFeatures) :
    (windowStatsDict sqrtFn [p]).get? 2 =
      some ("std_packet_size", RFloat.nan) ∧
    (featureRow sqrtFn none [p]).get? 2 = some RFloat.nan ∧
    RFloat.nan ≠ RFloat.val 0 := by
  refine ⟨?_, ?_, by simp⟩
  · simp [windowStatsDict, pandasStd]
  · simp [featureRow, windowStatsDict, pandasStd]

/-- C7: calling `start()` on a monitor that is already RUNNING logs the
"already running" warning and returns with the whole state unchanged —
no threads spawned, `packets_processed` (and every other field)
untouched. -/
theorem start_already_running_is_noop (m : TrafficMonitor)
    (h : m.is_running = true) :
    m.start = (m, StartOutcome.alreadyRunningWarning) := by
  rw [TrafficMonitor.start, if_pos h]

/-- A running monitor with a non-trivial packet counter. -/
def runningMonitor : TrafficMonitor :=
  { baseMonitor with
      is_running := true
      capture_thread := true
      analysis_thread := true
      stats := { baseMonitor.stats with packets_processed := 42 } }

/-- Witness for C7: the second `start()` on a running monitor with 42
processed packets changes nothing. -/
theorem start_already_running_is_noop_witness :
    runningMonitor.start = (runningMonitor, StartOutcome.alreadyRunningWarning) :=
  start_already_running_is_noop runningMonitor rfl

/-- C8: calling the stop operation when no monitor exists or the monitor
is not running yields the detectable HTTP 400 "Monitoring is not active"
rejection and leaves the monitor untouched.  `stop_monitoring` is a
total function: the `HTTPException` is the returned response value, not
an escaping exception. -/
theorem stop_not_active_rejects (mon : Option TrafficMonitor)
    (h : ∀ m, mon = some m → m.is_running = false) :
    stop_monitoring mon =
      (ApiResponse.httpError 400 "Monitoring is not active", mon) := by
  cases mon with
  | none => rfl
  | some m =>
    have hm := h m rfl
    simp [stop_monitoring, hm]

/-- Witness for C8: stopping when the monitor was never created. -/
theorem stop_not_active_rejects_witness :
    stop_monitoring none =
      (ApiResponse.httpError 400 "Monitoring is not active", none) :=
  stop_not_active_rejects none (fun m h => by cases h)

/-- A monitor at window start time 0 that has processed 5 packets. -/
def fastMonitor : TrafficMonitor :=
  { baseMonitor with
      stats := { baseMonitor.stats with packets_processed := 5 } }

/-- C9 counterexample: at elapsed time 1/2 the reported
`packets_per_second` is 5 (division by `max(1, 1/2) = 1`), while the
claimed formula `packets_processed / elapsed` gives 10. -/
theorem pps_clamped_counterexample :
    (fastMonitor.get_stats (1/2)).packets_per_second = 5 ∧
    (fastMonitor.stats.packets_processed : ℚ) /
        ((1/2 : ℚ) - fastMonitor.window_start_time) = 10 ∧
    (5 : ℚ) ≠ 10 := by
  refine ⟨?_, by norm_num [fastMonitor, baseMonitor], by norm_num⟩
  show (((5 : ℕ) : ℚ)) / max 1 ((1/2 : ℚ) - 0) = 5
  rw [show ((1/2 : ℚ) - 0) = 1/2 by norm_num,
      max_eq_left (by norm_num : (1/2 : ℚ) ≤ 1)]
  norm_num

/-- C9 amended: `packets_per_second` is `packets_processed` divided by
the CLAMPED elapsed time `max(1, t − window_start_time)` since the
current window's start; it agrees with the claimed quotient only once at
least one second has elapsed, and degenerates to the raw packet count
below that. -/
theorem pps_divides_by_clamped_elapsed (m : TrafficMonitor) (t : ℚ) :
    (m.get_stats t).packets_per_second =
      (m.stats.packets_processed : ℚ) / max 1 (t - m.window_start_time) ∧
    (1 ≤ t - m.window_start_time →
      (m.get_stats t).packets_per_second =
        (m.stats.packets_processed : ℚ) / (t - m.window_start_time)) ∧
    (t - m.window_start_time ≤ 1 →
      (m.get_stats t).packets_per_second =
        (m.stats.packets_processed : ℚ)) := by
  refine ⟨rfl, ?_, ?_⟩
  · intro h
    show (m.stats.packets_processed : ℚ) / max 1 (t - m.window_start_time) = _
    rw [max_eq_right h]
  · intro h
    show (m.stats.packets_processed : ℚ) / max 1 (t - m.window_start_time) = _
    rw [max_eq_left h, div_one]

/-- Witness for the amended C9: at elapsed time 3 the rate is 5/3. -/
theorem pps_divides_by_clamped_elapsed_witness :
    (fastMonitor.get_stats 3).packets_per_second = 5 / 3 := by
  have h := (pps_divides_by_clamped_elapsed fastMonitor 3).2.1
    (by norm_num [fastMonitor, baseMonitor])
  rw [h]
  norm_num [fastMonitor, baseMonitor]

/-- C10: `uptime` in `get_stats` is the elapsed time since the current
window's start (the monitor records no "started at" timestamp at all),
and every successful non-empty window reduction resets that start time
to the reduction instant — so `uptime` restarts from zero at each
reduction rather than measuring time since `start()`. -/
theorem uptime_measures_window_elapsed (m : TrafficMonitor) (t : ℚ) :
    (m.get_stats t).uptime = t - m.window_start_time ∧
    (∀ sqrtFn m', m.current_window ≠ [] →
        m.analyzeWindow sqrtFn t = some m' → m'.window_start_time = t) := by
  refine ⟨rfl, ?_⟩
  intro f m' hne hsome
  rw [TrafficMonitor.analyzeWindow, if_neg hne] at hsome
  rcases hp : m.detector.predict (featureRow f m.feature_names m.current_window)
    with _ | ⟨isA, preds⟩ <;> simp only [hp] at hsome
  · exact absurd hsome (by simp)
  · cases isA
    · rw [if_neg (by simp : ¬ (false = true))] at hsome
      obtain rfl := Option.some.inj hsome
      rfl
    · rw [if_pos rfl] at hsome
      obtain rfl := Option.some.inj hsome
      rfl

/-- A monitor with exactly one accumulated packet and the zero-enabled
detector. -/
def singlePacketMonitor : TrafficMonitor :=
  { baseMonitor with current_window := [{ packet_size := 100 }] }

/-- The state reached by reducing `singlePacketMonitor`'s window at time
9: verdict false recorded, window cleared, start time 9. -/
def analyzedSinglePacketMonitor : TrafficMonitor :=
  { baseMonitor with
      recent_predictions := [false]
      current_window := []
      window_start_time := 9 }

/-- Witness for C10: the reduction at time 9 sets the window start time
(hence the base of `uptime`) to 9. -/
theorem uptime_measures_window_elapsed_witness :
    analyzedSinglePacketMonitor.window_start_time = 9 :=
  (uptime_measures_window_elapsed singlePacketMonitor 9).2 (fun q => q)
    analyzedSinglePacketMonitor (by simp [singlePacketMonitor, baseMonitor])
    (by rfl)
